import Mathlib

/-!
Shallow embedding of the client-side comment scripts of the blog repository:
`assets/js/comment.js`, the legacy comment script bundled after
`assets/js/date.js`, and the script revisions in `unnamed/part_001`,
`unnamed/part_002` and `unnamed/part_003`. JavaScript strings are modelled as
Lean strings; the JavaScript `length` property is the UTF-16 code-unit count
and `TextEncoder().encode(s).length` is the UTF-8 byte length. DOM and server
interaction is modelled by explicit inputs (element ids present, response
statuses and bodies) and explicit outcome records.
-/

/-- UTF-8 byte length of a string, the value computed by
`new TextEncoder().encode(s).length` in the scripts. -/
def utf8Len (s : String) : Nat := s.data.foldl (fun n c => n + c.utf8Size) 0

/-- Number of UTF-16 code units a character occupies in a JavaScript string. -/
def utf16UnitsOfChar (c : Char) : Nat := if c.toNat < 65536 then 1 else 2

/-- UTF-16 code-unit count of a string, the value of the JavaScript `length`
property. -/
def utf16Len (s : String) : Nat := s.data.foldl (fun n c => n + utf16UnitsOfChar c) 0

/-- Models `s.slice(1)` as used on `window.location.hash`, whose first
character is always the one-unit character "#" when the string is nonempty. -/
def jsSliceOne (s : String) : String := ⟨s.data.drop 1⟩

/-- Models `s.startsWith(pre)`. -/
def jsStartsWith (s pre : String) : Bool := pre.data.isPrefixOf s.data

/-- Value of a decimal digit character, if it is one. -/
def decDigit (c : Char) : Option Nat :=
  if 48 ≤ c.toNat ∧ c.toNat ≤ 57 then some (c.toNat - 48) else none

/-- Accumulates the value of a decimal digit string. -/
def decNatAux : List Char → Nat → Option Nat
  | [], acc => some acc
  | c :: cs, acc =>
    match decDigit c with
    | some d => decNatAux cs (acc * 10 + d)
    | none => none

/-- Models the JavaScript number a counter string denotes, for `parseInt` and
for the implicit coercion done by `textContent -= 1`. It is exact on strings of
decimal digits with an optional leading minus sign, the only shape the
comments-count text takes; `none` stands for NaN. -/
def jsIntOfString (s : String) : Option Int :=
  match s.data with
  | [] => none
  | '-' :: cs => (decNatAux cs 0).map (fun n => -(n : Int))
  | cs => (decNatAux cs 0).map (fun n => (n : Int))

/-- Decimal digits of a natural number, most significant first, by fuelled
division; the fuel `n + 1` always suffices. -/
def natToCharsAux : Nat → Nat → List Char → List Char
  | 0, _, acc => acc
  | fuel + 1, n, acc =>
    let acc2 := Char.ofNat (48 + n % 10) :: acc
    if n < 10 then acc2 else natToCharsAux fuel (n / 10) acc2

/-- Decimal rendering of a natural number, as JavaScript `String(n)`. -/
def natToString (n : Nat) : String := ⟨natToCharsAux (n + 1) n []⟩

/-- Decimal rendering of an integer, as JavaScript `String(n)` on integral
numbers. -/
def intToString : Int → String
  | Int.ofNat n => natToString n
  | Int.negSucc n => ⟨'-' :: (natToString (n + 1)).data⟩

/-- Models `coms_count.textContent = parseInt(coms_count.textContent) + 1`:
parse the counter text as a number, add one, render back. -/
def jsAddOneNum (s : String) : String :=
  match jsIntOfString s with
  | some n => intToString (n + 1)
  | none => "NaN"

/-- Models the numeric decrement of the counter text (`textContent -= 1`
coerces the string to a number, and the parseInt variant parses it): parse,
subtract one, render back. -/
def jsSubOneNum (s : String) : String :=
  match jsIntOfString s with
  | some n => intToString (n - 1)
  | none => "NaN"

/-- View of one editor row after its `input` handler ran: the length shown in
the counter element and whether the submit control is disabled. -/
structure InputView where
  lenShown : Nat
  submitDisabled : Bool
deriving DecidableEq

/-- View produced by the part_001 `input` handler, which additionally colours
the length counter. -/
structure InputView001 where
  lenShown : Nat
  lenColor : String
  submitDisabled : Bool
deriving DecidableEq

/-- Embeds `input` from assets/js/comment.js lines 60-68: the length is the
UTF-8 byte length of the editor content and the submit control is disabled
when `len <= 0 || len > 5000`. -/
def commentJs.input (content : String) : InputView :=
  let len := utf8Len content
  { lenShown := len, submitDisabled := decide (len ≤ 0) || decide (len > 5000) }

/-- Embeds `input` from unnamed/part_001 lines 61-74: the length is the UTF-8
byte length, the counter turns red above 5000, and the submit control is
disabled when `len <= 0 || len > 5000`. -/
def part001.input (content : String) : InputView001 :=
  let len := utf8Len content
  { lenShown := len,
    lenColor := if len > 5000 then "red" else "white",
    submitDisabled := decide (len ≤ 0) || decide (len > 5000) }

/-- Embeds `input` from unnamed/part_002 lines 53-61: the length is the value
of the JavaScript `length` property, i.e. the UTF-16 code-unit count, and the
submit control is disabled when `len <= 0 || len > 5000`. -/
def part002.input (content : String) : InputView :=
  let len := utf16Len content
  { lenShown := len, submitDisabled := decide (len ≤ 0) || decide (len > 5000) }

/-- Embeds `input` from the legacy comment script bundled after
assets/js/date.js (lines 22-26): the length is the UTF-16 code-unit count and
the only disabling condition is `len > 10000`; empty content leaves the submit
control enabled. -/
def dateJsLegacy.input (content : String) : InputView :=
  let len := utf16Len content
  { lenShown := len, submitDisabled := decide (len > 10000) }

/-- Visibility of the two per-row editors of one comment row (the `hidden`
attribute of `editor-<id>-edit` and `editor-<id>-reply`). -/
structure RowEditors where
  editHidden : Bool
  replyHidden : Bool
deriving DecidableEq

/-- Embeds `toggle_edit` from assets/js/comment.js lines 71-76 (identical in
part_001 lines 77-82): flip the edit editor, hide the reply editor. -/
def toggle_edit (r : RowEditors) : RowEditors :=
  { editHidden := !r.editHidden, replyHidden := true }

/-- Embeds `toggle_reply` from assets/js/comment.js lines 79-84 (identical in
part_001 lines 85-90): hide the edit editor, flip the reply editor. -/
def toggle_reply (r : RowEditors) : RowEditors :=
  { editHidden := true, replyHidden := !r.replyHidden }

/-- One user action on a comment row's editors. -/
inductive RowAction
  | edit
  | reply
deriving DecidableEq

/-- Applies one toggle action to a row. -/
def rowStep (r : RowEditors) : RowAction → RowEditors
  | RowAction.edit => toggle_edit r
  | RowAction.reply => toggle_reply r

/-- Applies a sequence of toggle actions to a row, left to right. -/
def rowRun (r : RowEditors) (acts : List RowAction) : RowEditors :=
  acts.foldl rowStep r

/-- Page-level state touched by the comments panel scripts: the
`comments_visible` flag, the display style of the `comments` element, the
client-local storage value under the `comments_visible` key (`none` when the
key is absent), and which element id, if any, received the highlight
background. -/
structure PageState where
  commentsVisible : Bool
  commentsDisplay : String
  stored : Option String
  highlighted : Option String
deriving DecidableEq

/-- Embeds `toggle_comments` from unnamed/part_001 lines 47-58: set the display
style from the pre-flip flag, flip the flag, and write the new flag under the
`comments_visible` storage key. -/
def part001.toggle_comments (st : PageState) : PageState :=
  { st with
    commentsDisplay := if st.commentsVisible then "none" else "flex",
    commentsVisible := !st.commentsVisible,
    stored := some (if !st.commentsVisible then "true" else "false") }

/-- Embeds `toggle_comments` from assets/js/comment.js lines 43-51: as in
part_001 but with no storage write. -/
def commentJs.toggle_comments (st : PageState) : PageState :=
  { st with
    commentsDisplay := if st.commentsVisible then "none" else "flex",
    commentsVisible := !st.commentsVisible }

/-- Embeds `highlight_selected_comment` from unnamed/part_001 lines 12-33.
`fragment` is `window.location.hash` (empty when absent) and `ids` the element
ids present in the document; each failed guard returns the state unchanged,
otherwise the panel is toggled and the target marked. -/
def part001.highlight_selected_comment (fragment : String) (ids : List String)
    (st : PageState) : PageState :=
  if fragment = "" then st
  else
    let selId := jsSliceOne fragment
    if utf16Len selId = 0 then st
    else if !(jsStartsWith selId "com-") then st
    else if !(ids.contains selId) then st
    else
      let st1 := part001.toggle_comments st
      { st1 with highlighted := some selId }

/-- Embeds `highlight_selected_comment` from assets/js/comment.js lines 6-27:
same guards as the part_001 version, toggling without a storage write. -/
def commentJs.highlight_selected_comment (fragment : String) (ids : List String)
    (st : PageState) : PageState :=
  if fragment = "" then st
  else
    let selId := jsSliceOne fragment
    if utf16Len selId = 0 then st
    else if !(jsStartsWith selId "com-") then st
    else if !(ids.contains selId) then st
    else
      let st1 := commentJs.toggle_comments st
      { st1 with highlighted := some selId }

/-- Embeds the page-load sequence of unnamed/part_001 lines 1-9: starting with
the panel closed, run `highlight_selected_comment`, then read the storage key
(after the highlight may have written it) and toggle the panel open if the
stored value is the string "true" and the panel is still closed. -/
def part001.load (fragment : String) (ids : List String)
    (stored0 : Option String) : PageState :=
  let st0 : PageState :=
    { commentsVisible := false, commentsDisplay := "", stored := stored0,
      highlighted := none }
  let st1 := part001.highlight_selected_comment fragment ids st0
  if (st1.stored == some "true") && !st1.commentsVisible then
    part001.toggle_comments st1
  else st1

/-- Client view of one comment for the delete flow: whether the fragment with
element id `com-` + id is in the document, and the text of the
`comments-count` element. -/
structure CommentView where
  fragmentPresent : Bool
  counterText : String
deriving DecidableEq

/-- Outcome of a `del` invocation: whether the confirmation prompt was shown,
whether the DELETE request was sent, how many alerts were raised, and the
resulting comment view. -/
structure DelOutcome where
  confirmRequested : Bool
  requestSent : Bool
  alerts : Nat
  view : CommentView
deriving DecidableEq

/-- Embeds `del` from assets/js/comment.js lines 161-180. A declined
confirmation returns before any request. After a non-200 response the code
only raises an alert and falls through: the fragment removal and the counter
decrement (`textContent -= 1`, a numeric coercion) run regardless of the
response status. -/
def commentJs.del (confirmOk : Bool) (status : Nat) (v : CommentView) : DelOutcome :=
  if !confirmOk then
    { confirmRequested := true, requestSent := false, alerts := 0, view := v }
  else
    { confirmRequested := true, requestSent := true,
      alerts := if status = 200 then 0 else 1,
      view := { fragmentPresent := false,
                counterText := jsSubOneNum v.counterText } }

/-- Embeds `del` from unnamed/part_001 lines 203-222: a declined confirmation
returns before any request; a non-200 response alerts and returns, leaving the
fragment and the counter unchanged; on 200 the fragment is removed and the
counter set to `parseInt` of its text minus one. -/
def part001.del (confirmOk : Bool) (status : Nat) (v : CommentView) : DelOutcome :=
  if !confirmOk then
    { confirmRequested := true, requestSent := false, alerts := 0, view := v }
  else if !(status == 200) then
    { confirmRequested := true, requestSent := true, alerts := 1, view := v }
  else
    { confirmRequested := true, requestSent := true, alerts := 0,
      view := { fragmentPresent := false,
                counterText := jsSubOneNum v.counterText } }

/-- Outcome of a legacy `del` invocation from the script bundled after
assets/js/date.js. -/
structure LegacyDelOutcome where
  confirmRequested : Bool
  requestSent : Bool
  reloaded : Bool
deriving DecidableEq

/-- Embeds `del` from the legacy comment script bundled after
assets/js/date.js (lines 53-60). The comment above it reads "TODO add delete
confirm": the DELETE request is sent unconditionally, with no confirmation
prompt, and the page is then reloaded. -/
def dateJsLegacy.del (_comment_id : Nat) : LegacyDelOutcome :=
  { confirmRequested := false, requestSent := true, reloaded := true }

/-- Outcome of a `post` invocation: whether the create request and the
fragment fetch were issued, the container element id and markup string
appended (if any), the remaining editor content, the resulting counter text,
the number of alerts, and whether the handler aborted with an uncaught script
error before completing. -/
structure PostOutcome where
  createRequested : Bool
  fragmentRequested : Bool
  appended : Option (String × String)
  editorContent : String
  counterText : String
  alerts : Nat
  scriptError : Bool
deriving DecidableEq

/-- Embeds `post` from assets/js/comment.js lines 92-134. Empty content
returns early; a non-200 create or fragment response alerts and returns. On
success the fragment is appended under `comments-list` regardless of the
parent, the editor is cleared, and line 129 then calls `input(comment_id)`
without the `action` argument: the looked-up id contains the text "undefined",
no such element exists under the documented id convention, and the handler
aborts with a TypeError before the counter update at line 133, which is
therefore never executed. -/
def commentJs.post (_pid : Option Nat) (content : String)
    (createStatus _createId : Nat) (fragStatus : Nat) (fragBody : String)
    (counter : String) : PostOutcome :=
  if utf16Len content = 0 then
    { createRequested := false, fragmentRequested := false, appended := none,
      editorContent := content, counterText := counter, alerts := 0,
      scriptError := false }
  else if !(createStatus == 200) then
    { createRequested := true, fragmentRequested := false, appended := none,
      editorContent := content, counterText := counter, alerts := 1,
      scriptError := false }
  else if !(fragStatus == 200) then
    { createRequested := true, fragmentRequested := true, appended := none,
      editorContent := content, counterText := counter, alerts := 1,
      scriptError := false }
  else
    { createRequested := true, fragmentRequested := true,
      appended := some ("comments-list", fragBody),
      editorContent := "", counterText := counter, alerts := 0,
      scriptError := true }

/-- Embeds line 133 of assets/js/comment.js in isolation:
`coms_count.textContent += 1` on a string value applies JavaScript string
concatenation, appending the character "1" to the counter text. -/
def commentJs.postCountUpdate (counter : String) : String := counter ++ "1"

/-- Embeds `post` from unnamed/part_001 lines 112-167: empty content returns
early; a non-200 create response alerts and returns with a null id; a non-200
fragment fetch alerts and returns with null markup. Only after both succeed is
the fragment appended, under `comments-list` for a null parent and under
`comment-` + parent + `-replies` otherwise; the editor is cleared and the
counter set to `parseInt` of its text plus one. The `com-` + id lookup for
date formatting succeeds because the rendered fragment carries that element id
under the documented convention. -/
def part001.post (pid : Option Nat) (content : String)
    (createStatus _createId : Nat) (fragStatus : Nat) (fragBody : String)
    (counter : String) : PostOutcome :=
  if utf16Len content = 0 then
    { createRequested := false, fragmentRequested := false, appended := none,
      editorContent := content, counterText := counter, alerts := 0,
      scriptError := false }
  else if !(createStatus == 200) then
    { createRequested := true, fragmentRequested := false, appended := none,
      editorContent := content, counterText := counter, alerts := 1,
      scriptError := false }
  else if !(fragStatus == 200) then
    { createRequested := true, fragmentRequested := true, appended := none,
      editorContent := content, counterText := counter, alerts := 1,
      scriptError := false }
  else
    { createRequested := true, fragmentRequested := true,
      appended := some
        ((match pid with
          | none => "comments-list"
          | some p => "comment-" ++ natToString p ++ "-replies"), fragBody),
      editorContent := "", counterText := jsAddOneNum counter, alerts := 0,
      scriptError := false }

/-- Embeds `post` from unnamed/part_003 lines 92-149. Empty content returns
early. The create and fragment-fetch responses are not checked before use: a
failed create alerts but leaves `id` null, the fragment fetch still runs, and
`innerHTML += comment_html` appends the text "null" to the container when the
fetch failed. Line 140 then passes `com.querySelector(...)` (an Element or
null, never a NodeList) to `format_date_long`, whose `forEach` call throws a
TypeError on every path, so the editor reset and the counter update at lines
143-148 are never reached. -/
def part003.post (pid : Option Nat) (content : String)
    (createStatus _createId : Nat) (fragStatus : Nat) (fragBody : String)
    (counter : String) : PostOutcome :=
  if utf16Len content = 0 then
    { createRequested := false, fragmentRequested := false, appended := none,
      editorContent := content, counterText := counter, alerts := 0,
      scriptError := false }
  else
    { createRequested := true, fragmentRequested := true,
      appended := some
        ((match pid with
          | none => "comments-list"
          | some p => "comment-" ++ natToString p ++ "-replies"),
         if fragStatus == 200 then fragBody else "null"),
      editorContent := content, counterText := counter,
      alerts := (if createStatus == 200 then 0 else 1)
        + (if fragStatus == 200 then 0 else 1),
      scriptError := true }

/-- C1: the per-row editors of assets/js/comment.js and part_001 enable the
submit control exactly when the UTF-8 byte length is between 1 and 5000; the
legacy top-level editor bundled after date.js instead enables it exactly when
the UTF-16 unit count is at most 10000, so neither empty content nor the byte
measure disables it as the claim states. -/
theorem c1_amended (c : String) :
    ((commentJs.input c).submitDisabled = false ↔
      1 ≤ utf8Len c ∧ utf8Len c ≤ 5000)
    ∧ ((part001.input c).submitDisabled = false ↔
      1 ≤ utf8Len c ∧ utf8Len c ≤ 5000)
    ∧ ((dateJsLegacy.input c).submitDisabled = false ↔ utf16Len c ≤ 10000) := by
  refine ⟨?_, ?_, ?_⟩ <;>
    simp [commentJs.input, part001.input, dateJsLegacy.input] <;> omega

/-- C1 witness: the amended statement instantiated at the content "a". -/
theorem c1_amended_witness :
    ((commentJs.input "a").submitDisabled = false ↔
      1 ≤ utf8Len "a" ∧ utf8Len "a" ≤ 5000)
    ∧ ((part001.input "a").submitDisabled = false ↔
      1 ≤ utf8Len "a" ∧ utf8Len "a" ≤ 5000)
    ∧ ((dateJsLegacy.input "a").submitDisabled = false ↔
      utf16Len "a" ≤ 10000) :=
  c1_amended "a"

/-- C1 counterexample: on the legacy top-level editor, empty content has UTF-8
byte length 0, outside the claimed range 1..10000, yet the handler leaves the
submit control enabled. -/
theorem c1_counterexample :
    (dateJsLegacy.input "").submitDisabled = false ∧ utf8Len "" = 0 := by
  exact ⟨by decide, by decide⟩

/-- C2: the claim holds for the part_001 `del` but the assets/js/comment.js
`del` contradicts it: with the prompt accepted and a 500 response, the
comment.js version alerts yet still removes the fragment and decrements the
counter from "5" to "4", while the part_001 version leaves the view
unchanged. -/
theorem c2_code_bug :
    (commentJs.del true 500
      { fragmentPresent := true, counterText := "5" }).view =
      { fragmentPresent := false, counterText := "4" }
    ∧ (commentJs.del true 500
      { fragmentPresent := true, counterText := "5" }).alerts = 1
    ∧ (part001.del true 500
      { fragmentPresent := true, counterText := "5" }).view =
      { fragmentPresent := true, counterText := "5" }
    ∧ (part001.del true 500
      { fragmentPresent := true, counterText := "5" }).alerts = 1 := by
  exact ⟨by decide, by decide, by decide, by decide⟩

/-- C3: the claim holds for the part_001 `post` but the part_003 `post`
contradicts it: with a failed create (status 500) the part_003 version still
appends markup (the text "null") under `comments-list`, while the part_001
version appends nothing and leaves the counter text unchanged. -/
theorem c3_code_bug :
    (part003.post none "hi" 500 0 404 "err" "5").appended =
      some ("comments-list", "null")
    ∧ (part003.post none "hi" 500 0 404 "err" "5").alerts = 2
    ∧ (part001.post none "hi" 500 0 404 "err" "5").appended = none
    ∧ (part001.post none "hi" 500 0 404 "err" "5").counterText = "5"
    ∧ (part001.post none "hi" 200 7 404 "err" "5").appended = none
    ∧ (part001.post none "hi" 200 7 404 "err" "5").counterText = "5" := by
  exact ⟨by decide, by decide, by decide, by decide, by decide, by decide⟩

/-- C4: in the byte-measuring handlers (assets/js/comment.js and part_001) the
shown length is the UTF-8 byte length and a character of byte size greater
than one raises the measured length by its full byte size; the part_002 and
legacy date.js handlers instead measure UTF-16 units. -/
theorem c4_amended (s : String) (c : Char) (h : 1 < c.utf8Size) :
    (commentJs.input s).lenShown = utf8Len s
    ∧ (part001.input s).lenShown = utf8Len s
    ∧ (commentJs.input (s.push c)).lenShown =
      (commentJs.input s).lenShown + c.utf8Size
    ∧ 1 < c.utf8Size := by
  refine ⟨rfl, rfl, ?_, h⟩
  obtain ⟨l⟩ := s
  simp [commentJs.input, utf8Len, String.push, List.foldl_append]

/-- C4 witness: the amended statement instantiated with the two-byte character
appended to the content "a". -/
theorem c4_amended_witness :
    1 < Char.utf8Size 'é'
    ∧ (commentJs.input (String.push "a" 'é')).lenShown =
      (commentJs.input "a").lenShown + Char.utf8Size 'é' :=
  ⟨by decide, (c4_amended "a" 'é' (by decide)).2.2.1⟩

/-- C4 counterexample: the part_002 handler measures the two-byte character as
length 1, so the length used by that validation is not the UTF-8 byte
length. -/
theorem c4_counterexample :
    (part002.input "é").lenShown = 1 ∧ utf8Len "é" = 2
    ∧ ¬ (part002.input "é").lenShown = utf8Len "é" := by
  exact ⟨by decide, by decide, by decide⟩

/-- C5: the claim holds for part_001 (`post` sets the counter from "5" to "6",
`del` from "5" to "4") but assets/js/comment.js contradicts it: its successful
`post` aborts with a script error before the counter line, leaving "5", and
the counter line itself, executed in isolation, concatenates to "51", which
parses to 51 rather than 6. -/
theorem c5_code_bug :
    (commentJs.post none "hi" 200 7 200 "frag" "5").scriptError = true
    ∧ (commentJs.post none "hi" 200 7 200 "frag" "5").counterText = "5"
    ∧ commentJs.postCountUpdate "5" = "51"
    ∧ jsIntOfString (commentJs.postCountUpdate "5") = some 51
    ∧ jsIntOfString "5" = some 5
    ∧ (part001.post none "hi" 200 7 200 "frag" "5").counterText = "6"
    ∧ (part001.del true 200
      { fragmentPresent := true, counterText := "5" }).view.counterText =
      "4" := by
  exact ⟨by decide, by decide, by decide, by decide, by decide, by decide,
    by decide⟩

/-- C6: in the part_001 `post`, a successful create and fetch appends the
fragment under `comments-list` when the parent is null and under
`comment-` + parent + `-replies` otherwise; the sync assets/js/comment.js
revision instead appends every fragment under `comments-list`. -/
theorem c6_amended (pid : Option Nat) (content : String) (createId : Nat)
    (fragBody counter : String) (h : ¬ utf16Len content = 0) :
    (part001.post pid content 200 createId 200 fragBody counter).appended =
      some ((match pid with
        | none => "comments-list"
        | some p => "comment-" ++ natToString p ++ "-replies"), fragBody) := by
  simp [part001.post, h]

/-- C6 witness: the amended statement instantiated at parent id 5, giving the
container `comment-5-replies`. -/
theorem c6_amended_witness :
    (part001.post (some 5) "x" 200 7 200 "frag" "3").appended =
      some ("comment-" ++ natToString 5 ++ "-replies", "frag") :=
  c6_amended (some 5) "x" 7 "frag" "3" (by decide)

/-- C6 counterexample: the assets/js/comment.js `post` with non-null parent 5
appends under `comments-list`, not under `comment-5-replies`. -/
theorem c6_counterexample :
    (commentJs.post (some 5) "hi" 200 7 200 "frag" "3").appended =
      some ("comments-list", "frag")
    ∧ ¬ ("comments-list" = "comment-" ++ natToString 5 ++ "-replies") := by
  exact ⟨by decide, by decide⟩

/-- C7: on a load whose fragment names an existing comment element, the panel
ends opened and the element marked, but the opening is persisted: the
part_001 `toggle_comments` writes "true" under the visibility key, so the
override is not limited to that load. -/
theorem c7_amended (fragment : String) (ids : List String)
    (stored0 : Option String) (h0 : ¬ fragment = "")
    (h1 : ¬ utf16Len (jsSliceOne fragment) = 0)
    (h2 : jsStartsWith (jsSliceOne fragment) "com-" = true)
    (h3 : ids.contains (jsSliceOne fragment) = true) :
    (part001.load fragment ids stored0).commentsVisible = true
    ∧ (part001.load fragment ids stored0).commentsDisplay = "flex"
    ∧ (part001.load fragment ids stored0).highlighted =
      some (jsSliceOne fragment)
    ∧ (part001.load fragment ids stored0).stored = some "true" := by
  have h3m : jsSliceOne fragment ∈ ids := by simpa using h3
  simp [part001.load, part001.highlight_selected_comment,
    part001.toggle_comments, h0, h1, h2, h3m]

/-- C7 witness: the amended statement instantiated at the fragment
naming the element `com-5`, with "false" stored beforehand. -/
theorem c7_amended_witness :
    (part001.load "#com-5" ["com-5"] (some "false")).commentsVisible = true
    ∧ (part001.load "#com-5" ["com-5"] (some "false")).commentsDisplay = "flex"
    ∧ (part001.load "#com-5" ["com-5"] (some "false")).highlighted =
      some (jsSliceOne "#com-5")
    ∧ (part001.load "#com-5" ["com-5"] (some "false")).stored = some "true" :=
  c7_amended "#com-5" ["com-5"] (some "false") (by decide) (by decide)
    (by decide) (by decide)

/-- C7 counterexample: with "false" stored and the fragment naming an existing
comment, the load leaves "true" under the visibility key, so the persisted
value is changed by the fragment-triggered opening. -/
theorem c7_counterexample :
    ¬ (part001.load "#com-5" ["com-5"] (some "false")).stored =
      some "false" := by
  decide

/-- C8: the claim holds for the confirmed versions (assets/js/comment.js and
part_001 send nothing when the prompt is declined) but the legacy `del`
bundled after date.js contradicts it: it sends the DELETE request without
requesting any confirmation, as its own TODO comment concedes. -/
theorem c8_code_bug :
    (dateJsLegacy.del 5).requestSent = true
    ∧ (dateJsLegacy.del 5).confirmRequested = false
    ∧ (commentJs.del false 200
      { fragmentPresent := true, counterText := "5" }).requestSent = false
    ∧ (part001.del false 200
      { fragmentPresent := true, counterText := "5" }).requestSent = false := by
  exact ⟨rfl, rfl, by decide, by decide⟩

/-- C9: after any nonempty sequence of edit and reply toggles on a row, the
edit and reply editors are never both visible; moreover toggling edit always
hides the reply editor and toggling reply always hides the edit editor. -/
theorem c9_editors_exclusive (r : RowEditors) (a : RowAction)
    (acts : List RowAction) :
    ((rowRun r (a :: acts)).editHidden = true
      ∨ (rowRun r (a :: acts)).replyHidden = true)
    ∧ (toggle_edit r).replyHidden = true
    ∧ (toggle_reply r).editHidden = true := by
  refine ⟨?_, rfl, rfl⟩
  have step : ∀ (s : RowEditors) (b : RowAction),
      (rowStep s b).editHidden = true ∨ (rowStep s b).replyHidden = true := by
    intro s b
    cases b <;> simp [rowStep, toggle_edit, toggle_reply]
  have keep : ∀ (l : List RowAction) (s : RowEditors),
      (s.editHidden = true ∨ s.replyHidden = true) →
      ((rowRun s l).editHidden = true ∨ (rowRun s l).replyHidden = true) := by
    intro l
    induction l with
    | nil => intro s h; exact h
    | cons b bs ih =>
      intro s _h
      exact ih (rowStep s b) (step s b)
  exact keep acts (rowStep r a) (step r a)

/-- C9 witness: the statement instantiated at a row with both editors visible
and the action sequence edit, reply. -/
theorem c9_editors_exclusive_witness :
    ((rowRun { editHidden := false, replyHidden := false }
        [RowAction.edit, RowAction.reply]).editHidden = true
      ∨ (rowRun { editHidden := false, replyHidden := false }
        [RowAction.edit, RowAction.reply]).replyHidden = true)
    ∧ (toggle_edit { editHidden := false, replyHidden := false }).replyHidden =
      true
    ∧ (toggle_reply { editHidden := false, replyHidden := false }).editHidden =
      true :=
  c9_editors_exclusive { editHidden := false, replyHidden := false }
    RowAction.edit [RowAction.reply]

/-- C10: when the fragment is empty, or names nothing after the hash, or does
not start with `com-`, or names no element present, both the part_001 and the
assets/js/comment.js `highlight_selected_comment` return the page state
exactly unchanged. -/
theorem c10_highlight_no_change (fragment : String) (ids : List String)
    (st : PageState)
    (h : fragment = "" ∨ utf16Len (jsSliceOne fragment) = 0
      ∨ jsStartsWith (jsSliceOne fragment) "com-" = false
      ∨ ids.contains (jsSliceOne fragment) = false) :
    part001.highlight_selected_comment fragment ids st = st
    ∧ commentJs.highlight_selected_comment fragment ids st = st := by
  constructor
  · simp only [part001.highlight_selected_comment]
    split_ifs with h1 h2 h3 h4
    · rfl
    · rfl
    · rfl
    · rfl
    · rcases h with h | h | h | h
      · exact absurd h h1
      · exact absurd h h2
      · simp [h] at h3
      · exact absurd h4 (by simpa using h)
  · simp only [commentJs.highlight_selected_comment]
    split_ifs with h1 h2 h3 h4
    · rfl
    · rfl
    · rfl
    · rfl
    · rcases h with h | h | h | h
      · exact absurd h h1
      · exact absurd h h2
      · simp [h] at h3
      · exact absurd h4 (by simpa using h)

/-- C10 witness: the statement instantiated at a fragment that does not start
with `com-`, on a page with one comment element and a closed panel. -/
theorem c10_highlight_no_change_witness :
    part001.highlight_selected_comment "#top" ["com-1"]
      { commentsVisible := false, commentsDisplay := "none",
        stored := some "false", highlighted := none } =
      { commentsVisible := false, commentsDisplay := "none",
        stored := some "false", highlighted := none }
    ∧ commentJs.highlight_selected_comment "#top" ["com-1"]
      { commentsVisible := false, commentsDisplay := "none",
        stored := some "false", highlighted := none } =
      { commentsVisible := false, commentsDisplay := "none",
        stored := some "false", highlighted := none } :=
  c10_highlight_no_change "#top" ["com-1"]
    { commentsVisible := false, commentsDisplay := "none",
      stored := some "false", highlighted := none }
    (Or.inr (Or.inr (Or.inl (by decide))))
